import Mathlib

/-!
# Verification of the SlideView fullscreen slide-viewer logic

Shallow embedding of `src/components/content_views/SlideView.tsx`:
the navigation controller (swipe, zone click, keyboard, double-click),
the scale calculator, the page renderer's error handling, the document
loader's behaviour on source replacement, the base64 blob materializer,
and the saved-slide preview's click handling.

Numbers that are JavaScript floats in the source (touch coordinates,
click positions, timestamps, scales) are modelled as rationals; page
indices are naturals.
-/

namespace SlideView

/-! ## Navigation controller (`FullscreenSlideViewer`) -/

/-- Navigation state of `FullscreenSlideViewer`: `currentSlide` (1-based)
and `totalSlides`, the two `useState` hooks of SlideView.tsx lines 72-73. -/
structure NavState where
  currentSlide : Nat
  totalSlides : Nat
deriving DecidableEq, Repr

/-- `const minSwipeDistance = 50;` (SlideView.tsx line 108). -/
def minSwipeDistance : ℚ := 50

/-- JavaScript falsiness of a `number | null` value: `!x` holds for
`null` and for `0` (`NaN` is omitted: `clientX` is never `NaN`).
Used by the guard `if (!touchStart || !touchEnd) return;` (line 119). -/
def jsFalsy : Option ℚ → Bool
  | none => true
  | some x => decide (x = 0)

/-- `onTouchEnd` (SlideView.tsx lines 118-133). `distance = touchStart - touchEnd`;
a left swipe (`distance > minSwipeDistance`) advances when
`currentSlide < totalSlides`; a right swipe (`distance < -minSwipeDistance`)
goes back when `currentSlide > 1`. Both guards read the state at event time
(the closure's `currentSlide`), exactly as the source does; the two guards are
mutually exclusive, so the sequential composition below is faithful. -/
def onTouchEnd (touchStart touchEnd : Option ℚ) (s : NavState) : NavState :=
  if jsFalsy touchStart || jsFalsy touchEnd then s
  else
    let s1 := if touchStart.getD 0 - touchEnd.getD 0 > minSwipeDistance
        ∧ s.currentSlide < s.totalSlides then
      { s with currentSlide := s.currentSlide + 1 } else s
    if touchStart.getD 0 - touchEnd.getD 0 < -minSwipeDistance ∧ s.currentSlide > 1 then
      { s1 with currentSlide := s1.currentSlide - 1 } else s1

/-- The keys `handleKeyPress` (lines 137-149) reacts to. -/
inductive Key where
  | arrowLeft
  | arrowUp
  | arrowRight
  | arrowDown
  | escape
  | other
deriving DecidableEq, Repr

/-- `handleKeyPress` (SlideView.tsx lines 137-149), restricted to the page
transitions: ArrowLeft/ArrowUp do `Math.max(1, prev - 1)`,
ArrowRight/ArrowDown do `Math.min(totalSlides, prev + 1)`. Escape calls
`onClose` and changes no page state. -/
def handleKeyPress (k : Key) (s : NavState) : NavState :=
  match k with
  | .arrowLeft => { s with currentSlide := max 1 (s.currentSlide - 1) }
  | .arrowUp => { s with currentSlide := max 1 (s.currentSlide - 1) }
  | .arrowRight => { s with currentSlide := min s.totalSlides (s.currentSlide + 1) }
  | .arrowDown => { s with currentSlide := min s.totalSlides (s.currentSlide + 1) }
  | .escape => s
  | .other => s

/-- `handleClickNavigation` (SlideView.tsx lines 165-181):
`clickPercentage = clickX / rect.width * 100`; `clickPercentage <= 25` goes
back one slide (`Math.max(1, prev - 1)`), else `clickPercentage >= 75`
advances (`Math.min(totalSlides, prev + 1)`), else nothing. `clickX` is the
click position relative to the left edge of the surface. -/
def handleClickNavigation (clickX width : ℚ) (s : NavState) : NavState :=
  if clickX / width * 100 ≤ 25 then
    { s with currentSlide := max 1 (s.currentSlide - 1) }
  else if clickX / width * 100 ≥ 75 then
    { s with currentSlide := min s.totalSlides (s.currentSlide + 1) }
  else s

/-- One navigation input: a completed touch gesture, a key press, or a click
on the slide surface. -/
inductive NavEvent where
  | touch (touchStart touchEnd : Option ℚ)
  | key (k : Key)
  | click (clickX width : ℚ)

/-- Dispatch of one navigation input to its handler. -/
def navStep (e : NavEvent) (s : NavState) : NavState :=
  match e with
  | .touch ts te => onTouchEnd ts te s
  | .key k => handleKeyPress k s
  | .click x w => handleClickNavigation x w s

/-- A whole interaction sequence, run left to right. -/
def navRun (events : List NavEvent) (s : NavState) : NavState :=
  events.foldl (fun acc e => navStep e acc) s

/-- Classification of an input as a decrement attempt, mirroring the guards of
the three handlers: a completed right swipe, an ArrowLeft/ArrowUp key, or a
click whose percentage falls in the left zone. -/
def decrementEvent : NavEvent → Prop
  | .touch ts te => (jsFalsy ts || jsFalsy te) = false
      ∧ ts.getD 0 - te.getD 0 < -minSwipeDistance
  | .key k => k = .arrowLeft ∨ k = .arrowUp
  | .click x w => x / w * 100 ≤ 25

/-- Classification of an input as an increment attempt, mirroring the guards of
the three handlers: a completed left swipe, an ArrowRight/ArrowDown key, or a
click whose percentage falls in the right zone. -/
def incrementEvent : NavEvent → Prop
  | .touch ts te => (jsFalsy ts || jsFalsy te) = false
      ∧ ts.getD 0 - te.getD 0 > minSwipeDistance
  | .key k => k = .arrowRight ∨ k = .arrowDown
  | .click x w => x / w * 100 ≥ 75

/-! ## Click vs double-click on the fullscreen surface -/

/-- State relevant to the fullscreen surface's click handlers: the navigation
state, `lastClickTime` (line 78, initial value 0), and whether `onClose` has
been requested. -/
structure ViewerClickState where
  nav : NavState
  lastClickTime : ℚ
  closed : Bool
deriving DecidableEq, Repr

/-- `handleDoubleClick` of the fullscreen viewer (SlideView.tsx lines 156-162):
on a dblclick event it calls `onClose` when this event comes within 300 ms of
the previously recorded one, and always records the current time. -/
def handleDoubleClick (t : ℚ) (st : ViewerClickState) : ViewerClickState :=
  { st with
    closed := if t - st.lastClickTime < 300 then true else st.closed
    lastClickTime := t }

/-- One DOM `click` event on the slide surface: the element's only click
handler is `onClick={handleClickNavigation}` (line 215). -/
def domClick (clickX width : ℚ) (st : ViewerClickState) : ViewerClickState :=
  { st with nav := handleClickNavigation clickX width st.nav }

/-- A double-click pair at times `t1 < t2` recognized by the browser: the DOM
fires `click` (at `t1`), `click` (at `t2`), then `dblclick` (at `t2`); the
surface has `onClick={handleClickNavigation}` and
`onDoubleClick={handleDoubleClick}` (lines 215-216), so both click events run
zone navigation and only the final dblclick runs the double-click handler. -/
def domDoubleClickPair (_t1 t2 clickX width : ℚ) (st : ViewerClickState) :
    ViewerClickState :=
  handleDoubleClick t2 (domClick clickX width (domClick clickX width st))

/-! ## Page renderer (`SlidePdfViewer`, renderPage) -/

/-- Content of the drawing surface (the canvas bitmap), identified by the page
and scale that produced it. -/
inductive Frame where
  | blank
  | frame (page : Nat) (scale : ℚ)
deriving DecidableEq, Repr

/-- The canvas: its width/height attributes and its current bitmap. Per the
HTML specification, assigning `canvas.width` or `canvas.height` resets the
bitmap to blank. -/
structure Canvas where
  width : ℚ
  height : ℚ
  content : Frame
deriving DecidableEq, Repr

/-- How one `renderPage` invocation (SlideView.tsx lines 358-388) can end:
`getPageFailure` is a rejection of `await pdfDoc.getPage(currentSlide)`;
`renderFailure` is a rejection of `await renderTask.promise` (corrupt page
data); `renderCancelled` is the rejection `renderTask.promise` produces when a
superseding invocation calls `renderTaskRef.current.cancel()`. -/
inductive RenderOutcome where
  | success
  | getPageFailure
  | renderFailure
  | renderCancelled
deriving DecidableEq, Repr

/-- Result of one `renderPage` invocation: the canvas afterwards, whether the
`catch` block ran `console.error` and whether any exception escaped. -/
structure RenderResult where
  canvas : Canvas
  loggedError : Bool
  unhandled : Bool
deriving DecidableEq, Repr

/-- `renderPage` (SlideView.tsx lines 358-388). The body is one `try` block:
get the page, set `canvas.height`/`canvas.width` to the scaled viewport size
(which clears the bitmap), run `page.render`, await its promise; the single
`catch` logs `console.error('Error rendering page:', error)` for every
rejection, cancellation included, and nothing rethrows. A failure before the
canvas assignments leaves the canvas untouched; a failure or cancellation
after them leaves the freshly cleared (blank) canvas. -/
def renderPage (page : Nat) (scale pageWidth pageHeight : ℚ)
    (outcome : RenderOutcome) (canvas : Canvas) : RenderResult :=
  match outcome with
  | .getPageFailure =>
      { canvas := canvas, loggedError := true, unhandled := false }
  | .renderFailure =>
      { canvas := ⟨pageWidth * scale, pageHeight * scale, .blank⟩,
        loggedError := true, unhandled := false }
  | .renderCancelled =>
      { canvas := ⟨pageWidth * scale, pageHeight * scale, .blank⟩,
        loggedError := true, unhandled := false }
  | .success =>
      { canvas := ⟨pageWidth * scale, pageHeight * scale, .frame page scale⟩,
        loggedError := false, unhandled := false }

/-! ## Document loader (`SlidePdfViewer`, loadPdf effect) -/

/-- State of the `loadPdf` effect (SlideView.tsx lines 306-321): the current
`url` prop, the urls whose `getDocument` promise chain is still in flight, and
the loaded document, identified by the url it was loaded from. -/
structure LoaderState where
  url : String
  pending : List String
  pdfDoc : Option String
deriving DecidableEq, Repr

/-- What can happen around the `loadPdf` effect: the `url` prop changes (the
effect re-runs and starts a new load — it returns no cleanup, so the previous
in-flight load keeps running), or an in-flight load resolves (its continuation
runs `setPdfDoc(pdf)` and `onPdfLoad(pdf)` with no staleness check). -/
inductive LoadEvent where
  | setUrl (u : String)
  | resolves (u : String)
deriving DecidableEq, Repr

/-- One step of the loader model. `resolves u` is only meaningful for a load
that was actually started and is still in flight, hence the `u ∈ pending`
guard; when it fires, the effect's continuation installs the document
unconditionally, exactly as the source's `setPdfDoc(pdf)` does. -/
def loadStep (e : LoadEvent) (s : LoaderState) : LoaderState :=
  match e with
  | .setUrl u => { s with url := u, pending := u :: s.pending }
  | .resolves u =>
      if u ∈ s.pending then
        { s with pending := s.pending.erase u, pdfDoc := some u }
      else s

/-- A whole load/replace history, run left to right. -/
def loadRun (events : List LoadEvent) (s : LoaderState) : LoaderState :=
  events.foldl (fun acc e => loadStep e acc) s

/-! ## Scale calculator -/

/-- `calculateOptimalScale` (SlideView.tsx lines 325-346):
`scaleX = containerWidth / pageWidth`, `scaleY = containerHeight / pageHeight`,
`optimalScale = Math.min(scaleX, scaleY)`; nothing is subtracted. -/
def calculateOptimalScale (containerWidth containerHeight pageWidth pageHeight : ℚ) : ℚ :=
  let scaleX := containerWidth / pageWidth
  let scaleY := containerHeight / pageHeight
  min scaleX scaleY

/-! ## Blob materializer (`useBase64ToBlobUrl`) -/

/-- What the hook publishes through `setBlobUrl`: `null`, an object URL over
the decoded bytes, or (decode-failure fallback) the original input string. -/
inductive BlobUrl where
  | noUrl
  | objectUrl (bytes : List Nat)
  | original (s : String)
deriving DecidableEq, Repr

/-- JS `base64String.startsWith('data:application/pdf')`, as a
character-level test. -/
def startsWithPdfData (s : String) : Bool :=
  "data:application/pdf".data.isPrefixOf s.data

/-- `useBase64ToBlobUrl` (SlideView.tsx lines 26-61). Inputs that are absent
or do not start with `data:application/pdf` publish `null`. Otherwise the
payload after the first comma (`base64String.split(',')[1]`; the JS value
`undefined` coerces to the string `"undefined"` inside `atob`) is decoded by
the browser's `atob`, modelled as a parameter returning the decoded character
codes or `none` when it throws; each code is truncated to a byte by the
`Uint8Array` store. The `catch` of a decode failure publishes the original
string unchanged. -/
def useBase64ToBlobUrl (atob : String → Option (List Nat))
    (base64String : Option String) : BlobUrl :=
  match base64String with
  | none => .noUrl
  | some s =>
    if ¬ startsWithPdfData s then .noUrl
    else
      match atob ((s.splitOn ",").getD 1 "undefined") with
      | some codes => .objectUrl (codes.map (· % 256))
      | none => .original s

/-! ## Saved-slide preview (`SavedSlideViewer`) -/

/-- Click-relevant state of `SavedSlideViewer` plus the `fullscreenMode` flag
of `SlideView` that its `onExpand` prop sets (line 844). -/
structure SavedViewerState where
  fullscreenMode : Bool
  lastClickTime : ℚ
deriving DecidableEq, Repr

/-- `handleDoubleClick` of `SavedSlideViewer` (SlideView.tsx lines 469-475):
on a dblclick event, call `onExpand` when within 300 ms of the previously
recorded time, and always record the current time. -/
def savedHandleDoubleClick (t : ℚ) (st : SavedViewerState) : SavedViewerState :=
  { st with
    fullscreenMode := if t - st.lastClickTime < 300 then true else st.fullscreenMode
    lastClickTime := t }

/-- One DOM click on the preview area (SlideView.tsx lines 518-523): the
element has `onClick={onExpand}`, so every click sets `fullscreenMode`
unconditionally; when the click is the second of a browser-recognized
double-click, the subsequent dblclick event also runs `handleDoubleClick`. -/
def savedClick (t : ℚ) (isSecondOfPair : Bool) (st : SavedViewerState) :
    SavedViewerState :=
  let st1 := { st with fullscreenMode := true }
  if isSecondOfPair then savedHandleDoubleClick t st1 else st1

/-- A whole click history on the preview area, run left to right. -/
def savedRun (clicks : List (ℚ × Bool)) (st : SavedViewerState) : SavedViewerState :=
  clicks.foldl (fun acc c => savedClick c.1 c.2 acc) st

/-! ## Helper lemmas -/

theorem navStep_totalSlides (e : NavEvent) (s : NavState) :
    (navStep e s).totalSlides = s.totalSlides := by
  cases e with
  | touch ts te =>
      simp only [navStep, onTouchEnd]
      split_ifs <;> rfl
  | key k => cases k <;> rfl
  | click x w =>
      simp only [navStep, handleClickNavigation]
      split_ifs <;> rfl

theorem onTouchEnd_bounds (ts te : Option ℚ) (s : NavState) (h1 : 1 ≤ s.currentSlide)
    (h2 : s.currentSlide ≤ s.totalSlides) :
    1 ≤ (onTouchEnd ts te s).currentSlide ∧ (onTouchEnd ts te s).currentSlide ≤ s.totalSlides := by
  unfold onTouchEnd
  split_ifs <;> (try dsimp only) <;> (try simp_all) <;> omega

theorem handleKeyPress_bounds (k : Key) (s : NavState) (h1 : 1 ≤ s.currentSlide)
    (h2 : s.currentSlide ≤ s.totalSlides) :
    1 ≤ (handleKeyPress k s).currentSlide ∧ (handleKeyPress k s).currentSlide ≤ s.totalSlides := by
  cases k <;> dsimp only [handleKeyPress] <;> omega

theorem handleClickNavigation_bounds (x w : ℚ) (s : NavState) (h1 : 1 ≤ s.currentSlide)
    (h2 : s.currentSlide ≤ s.totalSlides) :
    1 ≤ (handleClickNavigation x w s).currentSlide ∧
      (handleClickNavigation x w s).currentSlide ≤ s.totalSlides := by
  unfold handleClickNavigation
  split_ifs <;> (try dsimp only) <;> omega

theorem navStep_bounds (e : NavEvent) (s : NavState) (h1 : 1 ≤ s.currentSlide)
    (h2 : s.currentSlide ≤ s.totalSlides) :
    1 ≤ (navStep e s).currentSlide ∧ (navStep e s).currentSlide ≤ (navStep e s).totalSlides := by
  rw [navStep_totalSlides]
  cases e with
  | touch ts te => exact onTouchEnd_bounds ts te s h1 h2
  | key k => exact handleKeyPress_bounds k s h1 h2
  | click x w => exact handleClickNavigation_bounds x w s h1 h2

theorem navRun_bounds (events : List NavEvent) (s : NavState) (h1 : 1 ≤ s.currentSlide)
    (h2 : s.currentSlide ≤ s.totalSlides) :
    1 ≤ (navRun events s).currentSlide ∧
      (navRun events s).currentSlide ≤ (navRun events s).totalSlides := by
  induction events generalizing s with
  | nil => exact ⟨h1, h2⟩
  | cons e rest ih =>
      have hb := navStep_bounds e s h1 h2
      exact ih (navStep e s) hb.1 hb.2

theorem savedClick_fullscreen (t : ℚ) (b : Bool) (st : SavedViewerState) :
    (savedClick t b st).fullscreenMode = true := by
  cases b <;> simp [savedClick, savedHandleDoubleClick]

theorem savedRun_fullscreen (clicks : List (ℚ × Bool)) (st : SavedViewerState)
    (h : st.fullscreenMode = true) :
    (savedRun clicks st).fullscreenMode = true := by
  induction clicks generalizing st with
  | nil => exact h
  | cons c rest ih => exact ih _ (savedClick_fullscreen c.1 c.2 st)

/-! ## Claims -/

/-- C1: for every `pageCount ≥ 1` and every sequence of navigation inputs
(swipes, zone clicks, key presses), `currentPage` stays within
`[1, pageCount]`; moreover a decrement attempt at page 1 and an increment
attempt at the last page leave the state unchanged (no-ops, no errors). -/
theorem C1_navigation_clamped (events : List NavEvent) (s : NavState)
    (h1 : 1 ≤ s.currentSlide) (h2 : s.currentSlide ≤ s.totalSlides) :
    (1 ≤ (navRun events s).currentSlide ∧
      (navRun events s).currentSlide ≤ (navRun events s).totalSlides) ∧
    (∀ e, decrementEvent e → s.currentSlide = 1 → navStep e s = s) ∧
    (∀ e, incrementEvent e → s.currentSlide = s.totalSlides → navStep e s = s) := by
  have h50 : (0 : ℚ) < minSwipeDistance := by norm_num [minSwipeDistance]
  refine ⟨navRun_bounds events s h1 h2, ?_, ?_⟩
  · rintro e hd hcs
    obtain ⟨c, tot⟩ := s
    simp only at hcs
    subst hcs
    cases e with
    | touch ts te =>
        obtain ⟨hf, hdist⟩ := hd
        have hno1 : ¬ (ts.getD 0 - te.getD 0 > minSwipeDistance ∧ 1 < tot) := by
          rintro ⟨h, -⟩; linarith
        have hno2 : ¬ (ts.getD 0 - te.getD 0 < -minSwipeDistance ∧ 1 > 1) := by
          rintro ⟨-, h⟩; omega
        simp only [navStep]
        simp [onTouchEnd, hf, hno1, hno2]
    | key k =>
        rcases hd with h | h <;> subst h <;> simp [navStep, handleKeyPress]
    | click x w =>
        have hd25 : x / w * 100 ≤ 25 := hd
        simp [navStep, handleClickNavigation, hd25]
  · rintro e hi hcs
    obtain ⟨c, tot⟩ := s
    simp only at hcs
    subst hcs
    cases e with
    | touch ts te =>
        obtain ⟨hf, hdist⟩ := hi
        have hno1 : ¬ (ts.getD 0 - te.getD 0 > minSwipeDistance ∧ c < c) := by
          rintro ⟨-, h⟩; omega
        have hno2 : ¬ (ts.getD 0 - te.getD 0 < -minSwipeDistance ∧ c > 1) := by
          rintro ⟨h, -⟩; linarith
        simp only [navStep]
        simp [onTouchEnd, hf, hno1, hno2]
    | key k =>
        have hmin : min c (c + 1) = c := by omega
        rcases hi with h | h <;> subst h <;> simp [navStep, handleKeyPress, hmin]
    | click x w =>
        have hd75 : x / w * 100 ≥ 75 := hi
        have hn25 : ¬ (x / w * 100 ≤ 25) := by linarith
        have hmin : min c (c + 1) = c := by omega
        simp [navStep, handleClickNavigation, hd75, hn25, hmin]

/-- Witness for C1 at a concrete input: page 1 of a 2-page document, one
ArrowRight, one click in the right zone, one leftward swipe. -/
theorem C1_navigation_clamped_witness :
    1 ≤ (navRun [NavEvent.key Key.arrowRight, NavEvent.click 95 100,
        NavEvent.touch (some 100) (some 20)] ⟨1, 2⟩).currentSlide ∧
      (navRun [NavEvent.key Key.arrowRight, NavEvent.click 95 100,
        NavEvent.touch (some 100) (some 20)] ⟨1, 2⟩).currentSlide ≤
        (navRun [NavEvent.key Key.arrowRight, NavEvent.click 95 100,
          NavEvent.touch (some 100) (some 20)] ⟨1, 2⟩).totalSlides :=
  (C1_navigation_clamped _ ⟨1, 2⟩ (by decide) (by decide)).1

/-- C2 as stated is false on the code: a click at horizontal position exactly
25% of the width falls under `clickPercentage <= 25` and decrements, so at
page 2 of 3 the state changes. -/
theorem C2_counterexample : handleClickNavigation 25 100 ⟨2, 3⟩ ≠ ⟨2, 3⟩ := by
  unfold handleClickNavigation
  rw [if_pos (by norm_num)]
  decide

/-- C2 amended: the left zone includes its boundary: a click at exactly 25% of
the width decrements (clamped at 1); a click strictly between 25% and 75%
leaves the state unchanged; a click at or beyond 75% increments (clamped to
`totalSlides`). -/
theorem C2_click_zone_boundaries (clickX width : ℚ) (s : NavState) (hw : 0 < width) :
    (clickX = width / 4 →
      handleClickNavigation clickX width s
        = { s with currentSlide := max 1 (s.currentSlide - 1) }) ∧
    (width / 4 < clickX → clickX < 3 * width / 4 →
      handleClickNavigation clickX width s = s) ∧
    (3 * width / 4 ≤ clickX →
      handleClickNavigation clickX width s
        = { s with currentSlide := min s.totalSlides (s.currentSlide + 1) }) := by
  have hphi : clickX / width * 100 = clickX * 100 / width := by ring
  refine ⟨?_, ?_, ?_⟩
  · intro hx
    have hc : clickX / width * 100 ≤ 25 := by
      rw [hphi, div_le_iff₀ hw]; subst hx; ring_nf; linarith
    unfold handleClickNavigation
    rw [if_pos hc]
  · intro hlo hhi
    have hc1 : ¬ (clickX / width * 100 ≤ 25) := by
      rw [hphi, div_le_iff₀ hw]; intro h; nlinarith
    have hc2 : ¬ (clickX / width * 100 ≥ 75) := by
      rw [ge_iff_le, hphi, le_div_iff₀ hw]; intro h; nlinarith
    unfold handleClickNavigation
    rw [if_neg hc1, if_neg hc2]
  · intro hx
    have hc2 : clickX / width * 100 ≥ 75 := by
      rw [ge_iff_le, hphi, le_div_iff₀ hw]; nlinarith
    have hc1 : ¬ (clickX / width * 100 ≤ 25) := by linarith
    unfold handleClickNavigation
    rw [if_neg hc1, if_pos hc2]

/-- Witness for C2 (amended) at a concrete input: width 100, click at
exactly 25, page 2 of 3 goes back to page 1. -/
theorem C2_click_zone_boundaries_witness :
    handleClickNavigation 25 100 ⟨2, 3⟩ = ⟨1, 3⟩ := by
  have h := (C2_click_zone_boundaries 25 100 ⟨2, 3⟩ (by norm_num)).1 (by norm_num)
  simpa using h

/-- C3 as stated is false on the code: `handleClickNavigation` has no
timestamp debounce, so for two clicks 100 ms apart (inside the 300 ms window)
in the right navigation zone the second click's zone navigation fires too:
starting at page 1 of 3, the pair leaves the viewer at page 3, not 2. -/
theorem C3_counterexample :
    (domDoubleClickPair 1000 1100 90 100 ⟨⟨1, 3⟩, 0, false⟩).nav.currentSlide ≠ 2 := by
  have h1 : handleClickNavigation 90 100 ⟨1, 3⟩ = ⟨2, 3⟩ := by
    unfold handleClickNavigation
    rw [if_neg (by norm_num), if_pos (by norm_num)]
    decide
  have h2 : handleClickNavigation 90 100 ⟨2, 3⟩ = ⟨3, 3⟩ := by
    unfold handleClickNavigation
    rw [if_neg (by norm_num), if_pos (by norm_num)]
    decide
  simp [domDoubleClickPair, domClick, handleDoubleClick, h1, h2]

/-- C3 amended: every click on the surface fires zone navigation, including
the second click of a double-click pair, whatever the two click times are:
after the pair the navigation state is `handleClickNavigation` applied twice.
The 300 ms timestamp comparison in `handleDoubleClick` gates only the
fullscreen-close action and never touches the navigation state. -/
theorem C3_second_click_still_navigates (t1 t2 clickX width : ℚ)
    (st : ViewerClickState) :
    (domDoubleClickPair t1 t2 clickX width st).nav
        = handleClickNavigation clickX width (handleClickNavigation clickX width st.nav)
      ∧ (handleDoubleClick t2 st).nav = st.nav :=
  ⟨rfl, rfl⟩

/-- C4 as stated is false on the code: a failure of the rasterization step
itself (`renderTask.promise` rejecting on corrupt page data) happens after
the `canvas.width`/`canvas.height` assignments, which cleared the surface, so
the previous frame is not retained: here a surface showing page 1 is blank
after the failed render of page 2. -/
theorem C4_counterexample :
    (renderPage 2 1 600 800 RenderOutcome.renderFailure
        ⟨600, 800, Frame.frame 1 1⟩).canvas.content ≠ Frame.frame 1 1 := by
  decide

/-- C4 amended: every non-cancellation render failure is logged and absorbed
(nothing escapes); a failure while fetching the page — before the canvas is
touched — leaves the previous frame on the surface, but a failure of the
rasterization step leaves the surface cleared, because the canvas resize that
precedes rendering blanks it. -/
theorem C4_render_failure_logged (page : Nat) (scale pw ph : ℚ) (c : Canvas) :
    ((renderPage page scale pw ph RenderOutcome.getPageFailure c).canvas = c ∧
      (renderPage page scale pw ph RenderOutcome.getPageFailure c).loggedError = true ∧
      (renderPage page scale pw ph RenderOutcome.getPageFailure c).unhandled = false) ∧
    ((renderPage page scale pw ph RenderOutcome.renderFailure c).canvas.content
        = Frame.blank ∧
      (renderPage page scale pw ph RenderOutcome.renderFailure c).loggedError = true ∧
      (renderPage page scale pw ph RenderOutcome.renderFailure c).unhandled = false) :=
  ⟨⟨rfl, rfl, rfl⟩, ⟨rfl, rfl, rfl⟩⟩

/-- C5 as stated is false on the code: the single catch in `renderPage` runs
`console.error` for a cancelled render too, so a cancellation is logged as an
error rather than being distinguished. -/
theorem C5_counterexample :
    (renderPage 2 1 600 800 RenderOutcome.renderCancelled
        ⟨600, 800, Frame.blank⟩).loggedError = true := rfl

/-- C5 amended: a cancelled render raises no unhandled failure (its rejection
is absorbed by the catch), but it is not distinguished from a render failure:
it is logged through exactly the same error log. -/
theorem C5_cancelled_render_absorbed (page : Nat) (scale pw ph : ℚ) (c : Canvas) :
    (renderPage page scale pw ph RenderOutcome.renderCancelled c).unhandled = false ∧
    (renderPage page scale pw ph RenderOutcome.renderCancelled c).loggedError
      = (renderPage page scale pw ph RenderOutcome.renderFailure c).loggedError :=
  ⟨rfl, rfl⟩

/-- C6 as stated is false on the code: the `loadPdf` effect neither cancels
nor guards a superseded load, so when source "A" is replaced by "B" and A's
load resolves after B's, A's document is installed: the final state has
`url = "B"` but the loaded document comes from `"A"`. -/
theorem C6_counterexample :
    (loadRun [LoadEvent.setUrl "A", LoadEvent.setUrl "B",
        LoadEvent.resolves "B", LoadEvent.resolves "A"] ⟨"", [], none⟩).pdfDoc
        = some "A" ∧
      (loadRun [LoadEvent.setUrl "A", LoadEvent.setUrl "B",
        LoadEvent.resolves "B", LoadEvent.resolves "A"] ⟨"", [], none⟩).url = "B" := by
  decide

/-- C6 amended: the result of a superseded pending load is not discarded: any
in-flight load that resolves installs its document unconditionally, even when
its url is no longer the current source — the final loaded document reflects
whichever load completed last (last-completed-wins, not last-source-wins). -/
theorem C6_stale_load_installs (u : String) (s : LoaderState) (h : u ∈ s.pending) :
    (loadStep (LoadEvent.resolves u) s).pdfDoc = some u := by
  simp [loadStep, h]

/-- Witness for C6 (amended): the superseded source "A" resolves while "B" is
current and still becomes the loaded document. -/
theorem C6_stale_load_installs_witness :
    (loadStep (LoadEvent.resolves "A") ⟨"B", ["A"], some "B"⟩).pdfDoc = some "A" :=
  C6_stale_load_installs "A" ⟨"B", ["A"], some "B"⟩ (by simp)

/-- C7: the computed scale is exactly
`min (viewportWidth / pageWidth) (viewportHeight / pageHeight)` and nothing
(no padding) is subtracted; in particular a 600×800 page in a 1200×900
viewport yields scale `min(2, 1.125) = 1.125`. -/
theorem C7_optimal_scale (vw vh pw ph : ℚ) :
    calculateOptimalScale vw vh pw ph = min (vw / pw) (vh / ph) ∧
    calculateOptimalScale 1200 900 600 800 = 1.125 := by
  constructor
  · rfl
  · show min ((1200 : ℚ) / 600) ((900 : ℚ) / 800) = 1.125
    rw [min_def]
    norm_num

/-- C8: the swipe threshold behaves as claimed only while both recorded
coordinates are JavaScript-truthy: a drag of exactly 50 px is a no-op, a drag
strictly over 50 px navigates (clamped) — but the guard
`if (!touchStart || !touchEnd) return;` also drops any completed gesture
whose coordinate is exactly `0` (left screen edge), because `0` is falsy: a
60 px leftward drag ending at `clientX = 0` changes nothing, where the claim
requires advancing to page 2. -/
theorem C8_swipe_threshold_and_zero_bug :
    onTouchEnd (some 60) (some 10) ⟨1, 3⟩ = ⟨1, 3⟩ ∧
    onTouchEnd (some 61) (some 10) ⟨1, 3⟩ = ⟨2, 3⟩ ∧
    onTouchEnd (some 10) (some 61) ⟨2, 3⟩ = ⟨1, 3⟩ ∧
    onTouchEnd (some 60) (some 0) ⟨1, 3⟩ = ⟨1, 3⟩ := by
  refine ⟨?_, ?_, ?_, ?_⟩ <;>
    norm_num [onTouchEnd, jsFalsy, minSwipeDistance]

/-- C9: when decoding the embedded payload fails, `useBase64ToBlobUrl`
publishes the original encoded string unchanged — the fallback branch of the
catch — instead of raising an error. -/
theorem C9_decode_failure_fallback (atob : String → Option (List Nat)) (s : String)
    (hp : startsWithPdfData s = true)
    (hfail : atob ((s.splitOn ",").getD 1 "undefined") = none) :
    useBase64ToBlobUrl atob (some s) = BlobUrl.original s := by
  simp only [List.getD_eq_getElem?_getD] at hfail
  simp [useBase64ToBlobUrl, hp, hfail]

/-- Witness for C9: a decoder that always throws still yields the original
string back for a well-prefixed input. -/
theorem C9_decode_failure_fallback_witness :
    useBase64ToBlobUrl (fun _ => none) (some "data:application/pdf,x") =
      BlobUrl.original "data:application/pdf,x" :=
  C9_decode_failure_fallback (fun _ => none) "data:application/pdf,x" (by decide) rfl

/-- C10: a single click on the saved-slide preview already opens the
fullscreen viewer: the preview area's click handler is `onExpand` itself
(unconditional), so the first click of any click sequence sets
`fullscreenMode`, and it stays set for the rest of the sequence. -/
theorem C10_single_click_opens_fullscreen (t : ℚ) (b : Bool)
    (clicks : List (ℚ × Bool)) (st : SavedViewerState) :
    (savedClick t b st).fullscreenMode = true ∧
    (savedRun ((t, b) :: clicks) st).fullscreenMode = true := by
  refine ⟨savedClick_fullscreen t b st, ?_⟩
  show (savedRun clicks (savedClick t b st)).fullscreenMode = true
  exact savedRun_fullscreen clicks _ (savedClick_fullscreen t b st)

end SlideView
